import Mathlib

/-!
Shallow embedding of `train.py` (nesap-stl): the run orchestrator `main`
and its device-assignment planner.  Pure arithmetic is modelled directly;
the side-effecting orchestration is modelled as a trace of events plus an
optional abort error.  External collaborators (topology provider, data
loaders, trainer) are modelled by an environment record supplying their
observable outputs.
-/

/-- The distributed backends accepted by `--distributed-backend`
(`choices=['mpi', 'nccl', 'gloo']` in `parse_args`). -/
inductive Backend where
  | mpi
  | nccl
  | gloo
  deriving DecidableEq

/-- The parsed command-line arguments of `parse_args` that the orchestration
consumes (`args.config` is subsumed by the `Config` record passed to `main`). -/
structure Args where
  /-- `-d`, `--distributed-backend`; absent means single-worker mode. -/
  distributed_backend : Option Backend
  /-- `--gpus`, an explicit device-id list. -/
  gpus : Option (List Int)
  /-- `--ranks-per-node`, an `int` with default `8`. -/
  ranks_per_node : Int
  /-- `--gpus-per-rank`, an optional `int`. -/
  gpus_per_rank : Option Int
  /-- `--resume`. -/
  resume : Bool
  /-- `-v`, `--verbose`. -/
  verbose : Bool

/-- The loaded YAML configuration mapping, abstracted to what `main` observes:
presence of the three required top-level keys and the optional output
directory.  The `data`/`train` payloads are forwarded opaquely to external
collaborators, so only their presence is modelled. -/
structure Config where
  output_dir : Option String
  hasData : Bool
  hasTrain : Bool
  hasTrainer : Bool

/-- Observable outputs of the external collaborators: worker topology
(`init_workers`), the data loaders (sampler lengths, and whether a
validation loader exists at all), and the summary returned by
`trainer.train` (per-epoch time samples, modelled as rationals). -/
structure Env where
  rank : Nat
  nRanks : Nat
  nTrainSamples : Nat
  /-- `some n` iff `valid_data_loader is not None`, with `n` its sampler length. -/
  validSamples : Option Nat
  trainTime : List ℚ
  validTime : List ℚ

/-- The device-assignment planner, `train.py` lines 78-89:

    if args.gpus is not None:
        gpus = args.gpus
    elif args.gpus_per_rank is not None:
        local_size = min(args.ranks_per_node, n_ranks)
        local_rank = rank % local_size
        gpus = [i * local_size + local_rank for i in range(args.gpus_per_rank)]
    else:
        gpus = []

Python `%` is floor-mod (`Int.fmod`) and raises `ZeroDivisionError` when
`local_size` is zero, hence the `Option` result; `range` of a non-positive
bound is empty, hence `Int.toNat`. -/
def devicePlan (gpus : Option (List Int)) (gpus_per_rank : Option Int)
    (ranks_per_node : Int) (rank n_ranks : Nat) : Option (List Int) :=
  match gpus with
  | some gs => some gs
  | none =>
    match gpus_per_rank with
    | some gpr =>
      let local_size : Int := min ranks_per_node (n_ranks : Int)
      if local_size = 0 then
        none
      else
        let local_rank : Int := Int.fmod (rank : Int) local_size
        some ((List.range gpr.toNat).map fun (i : Nat) => (i : Int) * local_size + local_rank)
    | none => some []

/-- Unfolding of the per-rank-count mode under a positive `local_size`,
with Python's floor-mod rewritten to the Euclidean `%` (they agree for a
non-negative dividend and positive divisor). -/
theorem devicePlan_per_rank (gpr rpn : Int) (r ws : Nat)
    (hrpn : 1 ≤ rpn) (hws : 1 ≤ ws) :
    devicePlan none (some gpr) rpn r ws =
      some ((List.range gpr.toNat).map fun (i : Nat) =>
        (i : Int) * min rpn (ws : Int) + (r : Int) % min rpn (ws : Int)) := by
  have hL : (1 : Int) ≤ min rpn (ws : Int) := by
    apply le_min hrpn
    exact_mod_cast hws
  have hL0 : min rpn (ws : Int) ≠ 0 := by omega
  have hfmod : Int.fmod (r : Int) (min rpn (ws : Int)) =
      (r : Int) % min rpn (ws : Int) :=
    Int.fmod_eq_emod _ (by omega)
  simp only [devicePlan, hL0, if_false, hfmod]

/-- C1: with no explicit device list and a positive `gpus_per_rank`, the plan
is `[i * local_size + local_rank for i in range(gpus_per_rank)]` with
`local_size = min(ranks_per_node, world_size)` and
`local_rank = rank mod local_size`; in particular, for
`ranks_per_node=8, gpus_per_rank=2, world_size=16, rank=9` it is `[1, 9]`. -/
theorem c1_device_plan_formula (gpr rpn : Int) (r ws : Nat)
    (hg : 0 < gpr) (hrpn : 1 ≤ rpn) (hws : 1 ≤ ws) :
    devicePlan none (some gpr) rpn r ws =
      some ((List.range gpr.toNat).map fun (i : Nat) =>
        (i : Int) * min rpn (ws : Int) + (r : Int) % min rpn (ws : Int)) ∧
    devicePlan none (some 2) 8 9 16 = some [1, 9] := by
  refine ⟨devicePlan_per_rank gpr rpn r ws hrpn hws, ?_⟩
  decide

/-- Witness for C1 at the spec's own example. -/
theorem c1_device_plan_formula_witness :
    devicePlan none (some 2) 8 9 16 =
      some ((List.range (2 : Int).toNat).map fun (i : Nat) =>
        (i : Int) * min 8 (16 : Int) + (9 : Int) % min 8 (16 : Int)) ∧
    devicePlan none (some 2) 8 9 16 = some [1, 9] :=
  c1_device_plan_formula 2 8 9 16 (by decide) (by decide) (by decide)

/-- C5: an explicit `--gpus` list is used verbatim, whatever its content
(empty included) and whatever `gpus_per_rank` says. -/
theorem c5_explicit_list_verbatim (l : List Int) (gpr : Option Int)
    (rpn : Int) (r ws : Nat) :
    devicePlan (some l) gpr rpn r ws = some l := rfl

/-- C9: with neither an explicit list nor `gpus_per_rank`, the plan is the
empty sequence and no error is raised. -/
theorem c9_default_cpu_mode (rpn : Int) (r ws : Nat) :
    devicePlan none none rpn r ws = some [] := rfl

/-- Membership in a per-rank-count plan: every element is
`i * L + r % L` for some `i < gpus_per_rank`. -/
theorem devicePlan_mem (gpr rpn : Int) (r ws : Nat) (p : List Int) (d : Int)
    (hrpn : 1 ≤ rpn) (hws : 1 ≤ ws)
    (hp : devicePlan none (some gpr) rpn r ws = some p) (hd : d ∈ p) :
    ∃ i : Nat, d = (i : Int) * min rpn (ws : Int) + (r : Int) % min rpn (ws : Int) := by
  rw [devicePlan_per_rank gpr rpn r ws hrpn hws] at hp
  injection hp with hp
  subst hp
  simp only [List.mem_map, List.mem_range] at hd
  obtain ⟨i, hi, hd⟩ := hd
  exact ⟨i, hd.symm⟩

/-- C2: the plans of two distinct ranks on the same node (same
`rank / local_size`) never share a device id. -/
theorem c2_same_node_disjoint (gpr rpn : Int) (ws r1 r2 : Nat) (p1 p2 : List Int)
    (hws : 1 ≤ ws) (hrpn : 1 ≤ rpn) (hgpr : 1 ≤ gpr)
    (hnode : (r1 : Int) / min rpn (ws : Int) = (r2 : Int) / min rpn (ws : Int))
    (hne : r1 ≠ r2)
    (h1 : devicePlan none (some gpr) rpn r1 ws = some p1)
    (h2 : devicePlan none (some gpr) rpn r2 ws = some p2) :
    ∀ d, d ∈ p1 → d ∉ p2 := by
  intro d hd1 hd2
  set L : Int := min rpn (ws : Int) with hLdef
  have hL : (1 : Int) ≤ L := by
    apply le_min hrpn
    exact_mod_cast hws
  obtain ⟨i1, hi1⟩ := devicePlan_mem gpr rpn r1 ws p1 d hrpn hws h1 hd1
  obtain ⟨i2, hi2⟩ := devicePlan_mem gpr rpn r2 ws p2 d hrpn hws h2 hd2
  have hm1 : ((i1 : Int) * L + (r1 : Int) % L) % L = (r1 : Int) % L := by
    rw [add_comm, Int.add_mul_emod_self]
    exact Int.emod_emod_of_dvd _ dvd_rfl
  have hm2 : ((i2 : Int) * L + (r2 : Int) % L) % L = (r2 : Int) % L := by
    rw [add_comm, Int.add_mul_emod_self]
    exact Int.emod_emod_of_dvd _ dvd_rfl
  have hmm : (r1 : Int) % L = (r2 : Int) % L := by
    rw [← hm1, ← hm2, ← hi1, ← hi2]
  have e1 : L * ((r1 : Int) / L) + (r1 : Int) % L = (r1 : Int) := Int.ediv_add_emod _ _
  have e2 : L * ((r2 : Int) / L) + (r2 : Int) % L = (r2 : Int) := Int.ediv_add_emod _ _
  have : (r1 : Int) = (r2 : Int) := by
    rw [← e1, ← e2, hnode, hmm]
  exact hne (by exact_mod_cast this)

/-- Witness for C2: ranks 8 and 9 share node 1 when
`ranks_per_node=8, world_size=16`; their plans are `[0, 8]` and `[1, 9]`,
and device 0 of the first does not appear in the second. -/
theorem c2_same_node_disjoint_witness :
    (0 : Int) ∈ [(0 : Int), 8] ∧ (0 : Int) ∉ [(1 : Int), 9] :=
  ⟨by decide,
    c2_same_node_disjoint 2 8 16 8 9 [0, 8] [1, 9]
      (by decide) (by decide) (by decide) (by decide) (by decide)
      (by decide) (by decide) 0 (by decide)⟩

/-- C10: a non-positive `gpus_per_rank` (with no explicit list) yields the
empty plan without an error, exactly like the default CPU mode; a positive
one yields a strictly increasing plan of exactly `gpus_per_rank` entries. -/
theorem c10_edge_cases (gpr rpn : Int) (r ws : Nat)
    (hrpn : 1 ≤ rpn) (hws : 1 ≤ ws) :
    (gpr ≤ 0 → devicePlan none (some gpr) rpn r ws = some [] ∧
      devicePlan none (some gpr) rpn r ws = devicePlan none none rpn r ws) ∧
    (0 < gpr → ∃ p, devicePlan none (some gpr) rpn r ws = some p ∧
      (p.length : Int) = gpr ∧ List.Pairwise (· < ·) p) := by
  have hL : (1 : Int) ≤ min rpn (ws : Int) := by
    apply le_min hrpn
    exact_mod_cast hws
  constructor
  · intro hg
    have ht : gpr.toNat = 0 := Int.toNat_of_nonpos hg
    rw [devicePlan_per_rank gpr rpn r ws hrpn hws, ht]
    exact ⟨rfl, rfl⟩
  · intro hg
    refine ⟨(List.range gpr.toNat).map
        (fun (i : Nat) => (i : Int) * min rpn (ws : Int) + (r : Int) % min rpn (ws : Int)),
      devicePlan_per_rank gpr rpn r ws hrpn hws, ?_, ?_⟩
    · rw [List.length_map, List.length_range]
      omega
    · refine List.Pairwise.map _ ?_ (List.pairwise_lt_range gpr.toNat)
      intro a b hab
      have : (a : Int) * min rpn (ws : Int) < (b : Int) * min rpn (ws : Int) := by
        apply mul_lt_mul_of_pos_right
        · exact_mod_cast hab
        · omega
      omega

/-- Witness for C10 at `gpus_per_rank ∈ {-1, 3}`, `ranks_per_node = 8`,
`rank = 1`, `world_size = 4`. -/
theorem c10_edge_cases_witness :
    ((-1 : Int) ≤ 0 → devicePlan none (some (-1)) 8 1 4 = some [] ∧
      devicePlan none (some (-1)) 8 1 4 = devicePlan none none 8 1 4) ∧
    ((0 : Int) < -1 → ∃ p, devicePlan none (some (-1)) 8 1 4 = some p ∧
      (p.length : Int) = -1 ∧ List.Pairwise (· < ·) p) :=
  c10_edge_cases (-1) 8 1 4 (by decide) (by decide)

/-- Observable steps of the orchestration in `main` (`train.py` lines 46-122),
in program order: log-stream setup, the two `try_barrier()` calls, data-loader
construction, device-plan choice, `get_trainer`, `trainer.build`,
`trainer.load_checkpoint`, `trainer.train`, and the final report lines. -/
inductive Event where
  /-- `os.makedirs(output_dir, exist_ok=True)` (line 60). -/
  | outputPrepared
  /-- `config_logging(...)` (line 65). -/
  | loggingConfigured
  /-- `logging.info('Initialized rank ...')` (line 66). -/
  | logInit
  /-- `try_barrier()` (lines 68 and 110). -/
  | barrier
  /-- `logging.info('Configuration: ...')`, rank 0 only (lines 69-70). -/
  | logConfig
  /-- `get_data_loaders(distributed=..., **config['data'])` returned (line 74). -/
  | dataLoaded (distributed : Bool)
  /-- the device plan has been chosen (lines 78-89). -/
  | devicesPlanned (gpus : List Int)
  /-- `logging.info('Using GPUs ...')` when the plan is non-empty (lines 90-91). -/
  | logUsingGpus (gpus : List Int)
  /-- `get_trainer(name=config['trainer'], distributed=..., devices=gpus, ...)` (line 94). -/
  | trainerBuilt (distributed : Bool) (devices : List Int)
  /-- `trainer.build(config)` (line 98). -/
  | modelBuilt
  /-- `trainer.load_checkpoint()` (line 102). -/
  | checkpointLoaded
  /-- `trainer.train(...)` returned (line 105). -/
  | trained
  /-- `logging.info('Finished training')` (line 112). -/
  | logFinished
  /-- `logging.info('Train samples %g time %g s rate %g samples/s', ...)` (line 114). -/
  | reportTrain (samples : Nat) (meanTime rate : ℚ)
  /-- `logging.info('Valid samples %g time %g s rate %g samples/s', ...)` (line 119). -/
  | reportValid (samples : Nat) (meanTime rate : ℚ)
  /-- `logging.info('All done!')` (line 122). -/
  | allDone
  deriving DecidableEq

/-- The exceptions that abort `main`: a `KeyError` on a missing required
config key (the spec's `ConfigError`), and the `ZeroDivisionError` of
`rank % 0` in the device planner. -/
inductive Err where
  | configError (key : String)
  | planError
  deriving DecidableEq

/-- `np.mean` on a list of samples: sum divided by length. -/
def listMean (l : List ℚ) : ℚ := l.sum / l.length

namespace Train

/-- The orchestration of `main` (`train.py` lines 46-122) as a trace:
the events that happened, in order, plus `some e` when the run aborted with
exception `e`.  Python evaluates `config['data']` (line 75),
`config['trainer']` (line 94) and `config['train']` (line 107) right before
calling the collaborator each feeds, so each missing key aborts the run at
that point. -/
def main (args : Args) (cfg : Config) (env : Env) : List Event × Option Err :=
  let distributed := args.distributed_backend.isSome
  let ev0 : List Event :=
    (if cfg.output_dir.isSome then [Event.outputPrepared] else []) ++
    [Event.loggingConfigured, Event.logInit, Event.barrier] ++
    (if env.rank = 0 then [Event.logConfig] else [])
  if cfg.hasData = false then (ev0, some (Err.configError "data")) else
  let ev1 := ev0 ++ [Event.dataLoaded distributed]
  match devicePlan args.gpus args.gpus_per_rank args.ranks_per_node env.rank env.nRanks with
  | none => (ev1, some Err.planError)
  | some gpus =>
    let ev2 := ev1 ++ [Event.devicesPlanned gpus] ++
      (if 0 < gpus.length then [Event.logUsingGpus gpus] else [])
    if cfg.hasTrainer = false then (ev2, some (Err.configError "trainer")) else
    let ev3 := ev2 ++ [Event.trainerBuilt distributed gpus, Event.modelBuilt] ++
      (if args.resume then [Event.checkpointLoaded] else [])
    if cfg.hasTrain = false then (ev3, some (Err.configError "train")) else
    let tTime := listMean env.trainTime
    let ev4 := ev3 ++ [Event.trained, Event.barrier, Event.logFinished,
      Event.reportTrain env.nTrainSamples tTime ((env.nTrainSamples : ℚ) / tTime)]
    let ev5 := ev4 ++
      (match env.validSamples with
       | some n =>
         [Event.reportValid n (listMean env.validTime) ((n : ℚ) / listMean env.validTime)]
       | none => []) ++
      [Event.allDone]
    (ev5, none)

end Train

namespace Train

/-- A run that completes (`main` returns no error) has all three required
config keys and produces exactly the program-order trace of `train.py`
lines 46-122, with the device plan the planner chose. -/
theorem main_ok (args : Args) (cfg : Config) (env : Env) (tr : List Event)
    (h : main args cfg env = (tr, none)) :
    cfg.hasData = true ∧ cfg.hasTrainer = true ∧ cfg.hasTrain = true ∧
    ∃ gpus, devicePlan args.gpus args.gpus_per_rank args.ranks_per_node
        env.rank env.nRanks = some gpus ∧
      tr = (if cfg.output_dir.isSome then [Event.outputPrepared] else []) ++
        [Event.loggingConfigured, Event.logInit, Event.barrier] ++
        (if env.rank = 0 then [Event.logConfig] else []) ++
        [Event.dataLoaded args.distributed_backend.isSome, Event.devicesPlanned gpus] ++
        (if 0 < gpus.length then [Event.logUsingGpus gpus] else []) ++
        [Event.trainerBuilt args.distributed_backend.isSome gpus, Event.modelBuilt] ++
        (if args.resume then [Event.checkpointLoaded] else []) ++
        [Event.trained, Event.barrier, Event.logFinished,
          Event.reportTrain env.nTrainSamples (listMean env.trainTime)
            ((env.nTrainSamples : ℚ) / listMean env.trainTime)] ++
        (match env.validSamples with
         | some n => [Event.reportValid n (listMean env.validTime)
             ((n : ℚ) / listMean env.validTime)]
         | none => []) ++
        [Event.allDone] := by
  cases hD : cfg.hasData
  · simp [main, hD] at h
  rcases hP : devicePlan args.gpus args.gpus_per_rank args.ranks_per_node env.rank env.nRanks
      with _ | gpus
  · simp [main, hD, hP] at h
  cases hTr : cfg.hasTrainer
  · simp [main, hD, hP, hTr] at h
  cases hT : cfg.hasTrain
  · simp [main, hD, hP, hTr, hT] at h
  simp [main, hD, hP, hTr, hT] at h
  refine ⟨rfl, rfl, rfl, gpus, rfl, ?_⟩
  rw [← h]
  simp [List.append_assoc]

end Train

/-- Is this event one of the two `try_barrier()` calls? -/
def Event.isBarrier : Event → Bool
  | Event.barrier => true
  | _ => false

/-- Is this event one of the two summary report lines (lines 114 and 119)? -/
def Event.isReport : Event → Bool
  | Event.reportTrain _ _ _ => true
  | Event.reportValid _ _ _ => true
  | _ => false

namespace Train

/-- C3 corrected: a missing required key is fatal, but only `data` is
detected before any construction; a missing `trainer` key is detected after
the data loaders are built, and a missing `train` key only after the
trainer is built. -/
theorem c3_missing_key_corrected (args : Args) (cfg : Config) (env : Env)
    (tr : List Event) (err : Option Err) (h : main args cfg env = (tr, err)) :
    (cfg.hasData = false →
      err = some (Err.configError "data") ∧
      (∀ d, Event.dataLoaded d ∉ tr) ∧
      (∀ d g, Event.trainerBuilt d g ∉ tr) ∧ Event.trained ∉ tr) ∧
    (cfg.hasData = true → cfg.hasTrainer = false →
      (devicePlan args.gpus args.gpus_per_rank args.ranks_per_node
        env.rank env.nRanks).isSome = true →
      err = some (Err.configError "trainer") ∧
      Event.dataLoaded args.distributed_backend.isSome ∈ tr ∧
      (∀ d g, Event.trainerBuilt d g ∉ tr) ∧ Event.trained ∉ tr) ∧
    (cfg.hasData = true → cfg.hasTrainer = true → cfg.hasTrain = false →
      (devicePlan args.gpus args.gpus_per_rank args.ranks_per_node
        env.rank env.nRanks).isSome = true →
      err = some (Err.configError "train") ∧
      (∃ g, Event.trainerBuilt args.distributed_backend.isSome g ∈ tr) ∧
      Event.trained ∉ tr) := by
  refine ⟨?_, ?_, ?_⟩
  · intro hD
    simp [main, hD] at h
    obtain ⟨htr, herr⟩ := h
    subst htr
    refine ⟨herr.symm, ?_, ?_, ?_⟩ <;> split_ifs <;> simp
  · intro hD hTr hP
    rw [Option.isSome_iff_exists] at hP
    obtain ⟨gpus, hP⟩ := hP
    simp [main, hD, hTr, hP] at h
    obtain ⟨htr, herr⟩ := h
    subst htr
    refine ⟨herr.symm, ?_, ?_, ?_⟩ <;> split_ifs <;> simp
  · intro hD hTr hT hP
    rw [Option.isSome_iff_exists] at hP
    obtain ⟨gpus, hP⟩ := hP
    simp [main, hD, hTr, hT, hP] at h
    obtain ⟨htr, herr⟩ := h
    subst htr
    refine ⟨herr.symm, ⟨gpus, by split_ifs <;> simp⟩, ?_⟩
    split_ifs <;> simp

/-- C3 counterexample: with `data` and `trainer` present but `train`
missing, the run errors only after the data loaders and the trainer were
both constructed, refuting "before any data loader or trainer is
constructed". -/
theorem c3_missing_key_counterexample :
    (main ⟨none, some [], 8, none, false, false⟩ ⟨none, true, false, true⟩
        ⟨0, 1, 0, none, [], []⟩).2 = some (Err.configError "train") ∧
    Event.trainerBuilt false [] ∈
      (main ⟨none, some [], 8, none, false, false⟩ ⟨none, true, false, true⟩
        ⟨0, 1, 0, none, [], []⟩).1 ∧
    Event.dataLoaded false ∈
      (main ⟨none, some [], 8, none, false, false⟩ ⟨none, true, false, true⟩
        ⟨0, 1, 0, none, [], []⟩).1 := by
  refine ⟨rfl, ?_, ?_⟩ <;> decide

end Train

namespace Train

/-- C4: in a completed run, `load_checkpoint()` happens iff `--resume` was
set, and when it happens it sits strictly between trainer construction and
`train()`. -/
theorem c4_resume_ordering (args : Args) (cfg : Config) (env : Env)
    (tr : List Event) (h : main args cfg env = (tr, none)) :
    (args.resume = false → Event.checkpointLoaded ∉ tr) ∧
    (args.resume = true → ∃ l1 l2, tr = l1 ++ Event.checkpointLoaded :: l2 ∧
      Event.checkpointLoaded ∉ l1 ∧ Event.checkpointLoaded ∉ l2 ∧
      (∃ g, Event.trainerBuilt args.distributed_backend.isSome g ∈ l1) ∧
      Event.trained ∈ l2) := by
  obtain ⟨hD, hTr, hT, gpus, hP, htr⟩ := main_ok args cfg env tr h
  subst htr
  rcases hv : env.validSamples with _ | n
  · constructor
    · intro hR
      split_ifs <;> simp_all
    · intro hR
      refine ⟨(if cfg.output_dir.isSome then [Event.outputPrepared] else []) ++
          [Event.loggingConfigured, Event.logInit, Event.barrier] ++
          (if env.rank = 0 then [Event.logConfig] else []) ++
          [Event.dataLoaded args.distributed_backend.isSome, Event.devicesPlanned gpus] ++
          (if 0 < gpus.length then [Event.logUsingGpus gpus] else []) ++
          [Event.trainerBuilt args.distributed_backend.isSome gpus, Event.modelBuilt],
        [Event.trained, Event.barrier, Event.logFinished,
          Event.reportTrain env.nTrainSamples (listMean env.trainTime)
            ((env.nTrainSamples : ℚ) / listMean env.trainTime), Event.allDone], ?_, ?_, ?_, ?_, ?_⟩
      · simp [hR, hv, List.append_assoc]
      · split_ifs <;> simp
      · simp
      · exact ⟨gpus, by simp⟩
      · simp
  · constructor
    · intro hR
      split_ifs <;> simp_all
    · intro hR
      refine ⟨(if cfg.output_dir.isSome then [Event.outputPrepared] else []) ++
          [Event.loggingConfigured, Event.logInit, Event.barrier] ++
          (if env.rank = 0 then [Event.logConfig] else []) ++
          [Event.dataLoaded args.distributed_backend.isSome, Event.devicesPlanned gpus] ++
          (if 0 < gpus.length then [Event.logUsingGpus gpus] else []) ++
          [Event.trainerBuilt args.distributed_backend.isSome gpus, Event.modelBuilt],
        [Event.trained, Event.barrier, Event.logFinished,
          Event.reportTrain env.nTrainSamples (listMean env.trainTime)
            ((env.nTrainSamples : ℚ) / listMean env.trainTime),
          Event.reportValid n (listMean env.validTime) ((n : ℚ) / listMean env.validTime),
          Event.allDone], ?_, ?_, ?_, ?_, ?_⟩
      · simp [hR, hv, List.append_assoc]
      · split_ifs <;> simp
      · simp
      · exact ⟨gpus, by simp⟩
      · simp

/-- Witness for C4: a completed single-worker run with `--resume`. -/
theorem c4_resume_ordering_witness :
    (true = false → Event.checkpointLoaded ∉
      (main ⟨none, some [], 8, none, true, false⟩ ⟨none, true, true, true⟩
        ⟨0, 1, 4, none, [2], []⟩).1) ∧
    (true = true → ∃ l1 l2,
      (main ⟨none, some [], 8, none, true, false⟩ ⟨none, true, true, true⟩
        ⟨0, 1, 4, none, [2], []⟩).1 = l1 ++ Event.checkpointLoaded :: l2 ∧
      Event.checkpointLoaded ∉ l1 ∧ Event.checkpointLoaded ∉ l2 ∧
      (∃ g, Event.trainerBuilt (none : Option Backend).isSome g ∈ l1) ∧
      Event.trained ∈ l2) :=
  c4_resume_ordering ⟨none, some [], 8, none, true, false⟩ ⟨none, true, true, true⟩
    ⟨0, 1, 4, none, [2], []⟩ _ rfl

/-- C6: the `distributed` flag handed to both the data-loader construction
and the trainer factory is exactly "a backend was selected", independent of
the discovered world size. -/
theorem c6_distributed_flag (args : Args) (cfg : Config) (env : Env)
    (tr : List Event) (h : main args cfg env = (tr, none)) :
    Event.dataLoaded args.distributed_backend.isSome ∈ tr ∧
    (∃ g, Event.trainerBuilt args.distributed_backend.isSome g ∈ tr) ∧
    (∀ d, Event.dataLoaded d ∈ tr → d = args.distributed_backend.isSome) ∧
    (∀ d g, Event.trainerBuilt d g ∈ tr → d = args.distributed_backend.isSome) := by
  obtain ⟨hD, hTr, hT, gpus, hP, htr⟩ := main_ok args cfg env tr h
  subst htr
  rcases hv : env.validSamples with _ | n <;>
      refine ⟨by simp, ⟨gpus, by simp⟩, ?_, ?_⟩ <;>
    first
      | (intro d hd; split_ifs at hd <;> simp_all)
      | (intro d g hd; split_ifs at hd <;> simp_all)

/-- Witness for C6: a completed run with the gloo backend and world size 1. -/
theorem c6_distributed_flag_witness :
    Event.dataLoaded (some Backend.gloo : Option Backend).isSome ∈
      (main ⟨some Backend.gloo, some [], 8, none, false, false⟩ ⟨none, true, true, true⟩
        ⟨0, 1, 4, none, [2], []⟩).1 ∧
    (∃ g, Event.trainerBuilt (some Backend.gloo : Option Backend).isSome g ∈
      (main ⟨some Backend.gloo, some [], 8, none, false, false⟩ ⟨none, true, true, true⟩
        ⟨0, 1, 4, none, [2], []⟩).1) ∧
    (∀ d, Event.dataLoaded d ∈
      (main ⟨some Backend.gloo, some [], 8, none, false, false⟩ ⟨none, true, true, true⟩
        ⟨0, 1, 4, none, [2], []⟩).1 → d = (some Backend.gloo : Option Backend).isSome) ∧
    (∀ d g, Event.trainerBuilt d g ∈
      (main ⟨some Backend.gloo, some [], 8, none, false, false⟩ ⟨none, true, true, true⟩
        ⟨0, 1, 4, none, [2], []⟩).1 → d = (some Backend.gloo : Option Backend).isSome) :=
  c6_distributed_flag ⟨some Backend.gloo, some [], 8, none, false, false⟩
    ⟨none, true, true, true⟩ ⟨0, 1, 4, none, [2], []⟩ _ rfl

end Train

namespace Train

/-- C7: a completed run hits the barrier exactly twice: once after logging
is configured and before the data loaders, device plan and trainer exist,
and once after `train()` returns and before any report line. -/
theorem c7_two_barriers (args : Args) (cfg : Config) (env : Env)
    (tr : List Event) (h : main args cfg env = (tr, none)) :
    tr.countP (fun e => e.isBarrier) = 2 ∧
    ∃ l1 l2 l3, tr = l1 ++ (Event.barrier :: (l2 ++ (Event.barrier :: l3))) ∧
      Event.loggingConfigured ∈ l1 ∧
      (∀ d, Event.dataLoaded d ∉ l1) ∧
      (∀ g, Event.devicesPlanned g ∉ l1) ∧
      (∀ d g, Event.trainerBuilt d g ∉ l1) ∧
      (∃ d, Event.dataLoaded d ∈ l2) ∧
      (∃ g, Event.devicesPlanned g ∈ l2) ∧
      (∃ d g, Event.trainerBuilt d g ∈ l2) ∧
      Event.trained ∈ l2 ∧
      l1.countP (fun e => e.isReport) = 0 ∧
      l2.countP (fun e => e.isReport) = 0 ∧
      (∃ n t r, Event.reportTrain n t r ∈ l3) := by
  obtain ⟨hD, hTr, hT, gpus, hP, htr⟩ := main_ok args cfg env tr h
  subst htr
  constructor
  · rcases hv : env.validSamples with _ | n <;>
      simp [hv, List.countP_append, List.countP_cons, Event.isBarrier] <;>
      split_ifs <;>
      simp [List.countP_cons, Event.isBarrier]
  · refine ⟨(if cfg.output_dir.isSome then [Event.outputPrepared] else []) ++
        [Event.loggingConfigured, Event.logInit],
      (if env.rank = 0 then [Event.logConfig] else []) ++
        [Event.dataLoaded args.distributed_backend.isSome, Event.devicesPlanned gpus] ++
        (if 0 < gpus.length then [Event.logUsingGpus gpus] else []) ++
        [Event.trainerBuilt args.distributed_backend.isSome gpus, Event.modelBuilt] ++
        (if args.resume then [Event.checkpointLoaded] else []) ++
        [Event.trained],
      [Event.logFinished,
        Event.reportTrain env.nTrainSamples (listMean env.trainTime)
          ((env.nTrainSamples : ℚ) / listMean env.trainTime)] ++
        (match env.validSamples with
         | some n => [Event.reportValid n (listMean env.validTime)
             ((n : ℚ) / listMean env.validTime)]
         | none => []) ++
        [Event.allDone], ?_, ?_, ?_, ?_, ?_, ?_, ?_, ?_, ?_, ?_, ?_, ?_⟩
    · simp [List.append_assoc]
    · split_ifs <;> simp
    · intro d
      split_ifs <;> simp
    · intro g
      split_ifs <;> simp
    · intro d g
      split_ifs <;> simp
    · exact ⟨args.distributed_backend.isSome, by simp⟩
    · exact ⟨gpus, by simp⟩
    · exact ⟨args.distributed_backend.isSome, gpus, by simp⟩
    · simp
    · split_ifs <;>
        simp [List.countP_append, List.countP_cons, Event.isReport]
    · split_ifs <;>
        simp [List.countP_append, List.countP_cons, Event.isReport]
    · exact ⟨env.nTrainSamples, listMean env.trainTime,
        (env.nTrainSamples : ℚ) / listMean env.trainTime, by simp⟩

/-- Witness for C7: a completed single-worker run. -/
theorem c7_two_barriers_witness :
    ((main ⟨none, some [], 8, none, false, false⟩ ⟨none, true, true, true⟩
      ⟨0, 1, 4, none, [2], []⟩).1.countP (fun e => e.isBarrier) = 2 ∧
    ∃ l1 l2 l3, (main ⟨none, some [], 8, none, false, false⟩ ⟨none, true, true, true⟩
        ⟨0, 1, 4, none, [2], []⟩).1 =
        l1 ++ (Event.barrier :: (l2 ++ (Event.barrier :: l3))) ∧
      Event.loggingConfigured ∈ l1 ∧
      (∀ d, Event.dataLoaded d ∉ l1) ∧
      (∀ g, Event.devicesPlanned g ∉ l1) ∧
      (∀ d g, Event.trainerBuilt d g ∉ l1) ∧
      (∃ d, Event.dataLoaded d ∈ l2) ∧
      (∃ g, Event.devicesPlanned g ∈ l2) ∧
      (∃ d g, Event.trainerBuilt d g ∈ l2) ∧
      Event.trained ∈ l2 ∧
      l1.countP (fun e => e.isReport) = 0 ∧
      l2.countP (fun e => e.isReport) = 0 ∧
      (∃ n t r, Event.reportTrain n t r ∈ l3)) :=
  c7_two_barriers ⟨none, some [], 8, none, false, false⟩ ⟨none, true, true, true⟩
    ⟨0, 1, 4, none, [2], []⟩ _ rfl

/-- C8: the final report carries this worker's own sample count, the mean
of the `train_time` samples and the derived `samples / mean` throughput,
and a validation line appears iff a validation loader exists (with the
analogous values). -/
theorem c8_reporting (args : Args) (cfg : Config) (env : Env)
    (tr : List Event) (h : main args cfg env = (tr, none))
    (hT : 0 < listMean env.trainTime)
    (hV : ∀ n, env.validSamples = some n → 0 < listMean env.validTime) :
    Event.reportTrain env.nTrainSamples (listMean env.trainTime)
        ((env.nTrainSamples : ℚ) / listMean env.trainTime) ∈ tr ∧
    ((∃ n t r, Event.reportValid n t r ∈ tr) ↔ env.validSamples.isSome = true) ∧
    (∀ n, env.validSamples = some n →
      Event.reportValid n (listMean env.validTime)
        ((n : ℚ) / listMean env.validTime) ∈ tr) := by
  obtain ⟨hD, hTr, hT2, gpus, hP, htr⟩ := main_ok args cfg env tr h
  subst htr
  rcases hv : env.validSamples with _ | m
  · refine ⟨by simp, ?_, by simp [hv]⟩
    constructor
    · rintro ⟨n, t, r, hn⟩
      split_ifs at hn <;> simp_all
    · simp
  · refine ⟨by simp, ?_, ?_⟩
    · constructor
      · intro _
        simp
      · intro _
        exact ⟨m, listMean env.validTime, (m : ℚ) / listMean env.validTime, by simp⟩
    · intro n hn
      injection hn with hn
      subst hn
      simp

/-- Witness for C8: a completed run with a validation loader of 5 samples. -/
theorem c8_reporting_witness :
    (Event.reportTrain 4 (listMean [2]) ((4 : ℚ) / listMean [2]) ∈
      (main ⟨none, some [], 8, none, false, false⟩ ⟨none, true, true, true⟩
        ⟨0, 1, 4, some 5, [2], [1]⟩).1 ∧
    ((∃ n t r, Event.reportValid n t r ∈
      (main ⟨none, some [], 8, none, false, false⟩ ⟨none, true, true, true⟩
        ⟨0, 1, 4, some 5, [2], [1]⟩).1) ↔ (some 5 : Option Nat).isSome = true) ∧
    (∀ n, (some 5 : Option Nat) = some n →
      Event.reportValid n (listMean [1]) ((n : ℚ) / listMean [1]) ∈
        (main ⟨none, some [], 8, none, false, false⟩ ⟨none, true, true, true⟩
          ⟨0, 1, 4, some 5, [2], [1]⟩).1)) :=
  c8_reporting ⟨none, some [], 8, none, false, false⟩ ⟨none, true, true, true⟩
    ⟨0, 1, 4, some 5, [2], [1]⟩ _ rfl (by norm_num [listMean])
    (fun n _ => by norm_num [listMean])

end Train

namespace Train

/-- Witness for the corrected C3: a run whose config lacks the `data` key. -/
theorem c3_missing_key_corrected_witness :
    ((false : Bool) = false →
      (main ⟨none, none, 8, none, false, false⟩ ⟨none, false, true, true⟩
        ⟨1, 2, 0, none, [], []⟩).2 = some (Err.configError "data") ∧
      (∀ d, Event.dataLoaded d ∉
        (main ⟨none, none, 8, none, false, false⟩ ⟨none, false, true, true⟩
          ⟨1, 2, 0, none, [], []⟩).1) ∧
      (∀ d g, Event.trainerBuilt d g ∉
        (main ⟨none, none, 8, none, false, false⟩ ⟨none, false, true, true⟩
          ⟨1, 2, 0, none, [], []⟩).1) ∧
      Event.trained ∉
        (main ⟨none, none, 8, none, false, false⟩ ⟨none, false, true, true⟩
          ⟨1, 2, 0, none, [], []⟩).1) ∧
    ((false : Bool) = true → (true : Bool) = false →
      (devicePlan none none 8 1 2).isSome = true →
      (main ⟨none, none, 8, none, false, false⟩ ⟨none, false, true, true⟩
        ⟨1, 2, 0, none, [], []⟩).2 = some (Err.configError "trainer") ∧
      Event.dataLoaded (none : Option Backend).isSome ∈
        (main ⟨none, none, 8, none, false, false⟩ ⟨none, false, true, true⟩
          ⟨1, 2, 0, none, [], []⟩).1 ∧
      (∀ d g, Event.trainerBuilt d g ∉
        (main ⟨none, none, 8, none, false, false⟩ ⟨none, false, true, true⟩
          ⟨1, 2, 0, none, [], []⟩).1) ∧
      Event.trained ∉
        (main ⟨none, none, 8, none, false, false⟩ ⟨none, false, true, true⟩
          ⟨1, 2, 0, none, [], []⟩).1) ∧
    ((false : Bool) = true → (true : Bool) = true → (true : Bool) = false →
      (devicePlan none none 8 1 2).isSome = true →
      (main ⟨none, none, 8, none, false, false⟩ ⟨none, false, true, true⟩
        ⟨1, 2, 0, none, [], []⟩).2 = some (Err.configError "train") ∧
      (∃ g, Event.trainerBuilt (none : Option Backend).isSome g ∈
        (main ⟨none, none, 8, none, false, false⟩ ⟨none, false, true, true⟩
          ⟨1, 2, 0, none, [], []⟩).1) ∧
      Event.trained ∉
        (main ⟨none, none, 8, none, false, false⟩ ⟨none, false, true, true⟩
          ⟨1, 2, 0, none, [], []⟩).1) :=
  c3_missing_key_corrected ⟨none, none, 8, none, false, false⟩ ⟨none, false, true, true⟩
    ⟨1, 2, 0, none, [], []⟩ _ _ rfl

end Train
